import Mathlib

/-!
# School management API: distance computation and proximity listing

A shallow embedding of `school-management-api/app.js`.

JavaScript numbers are modelled by `JSNum`: the two non-finite kinds of value that the
program can meet (`NaN`, `±Infinity`) are kept explicit, and a finite number carries a real
value on which arithmetic is exact.  Rounding of binary floating point and the sign of zero are
outside the model.  In particular the facts about `calculateDistance` on finite arguments are
facts of exact arithmetic, in which the quantity `a` of the Haversine formula never exceeds 1;
on doubles rounding can lift it above 1, and what the rest of the function does with such a
value is stated separately.  The facts about the order of the listing do not use the value of
any distance, only that it is a number.
-/

noncomputable section

open Classical

/-! ## JavaScript numbers -/

/-- A JavaScript number: `NaN`, `+Infinity` / `-Infinity`, or a finite value. -/
inductive JSNum where
  | nan : JSNum
  | inf (negative : Bool) : JSNum
  | fin (x : ℝ) : JSNum

namespace JSNum

/-- The global `isNaN` on a number. -/
def isNaN : JSNum → Bool
  | nan => true
  | _ => false

/-- Unary minus. -/
def neg : JSNum → JSNum
  | nan => nan
  | inf s => inf (!s)
  | fin x => fin (-x)

/-- The `+` operator on numbers. -/
def add : JSNum → JSNum → JSNum
  | nan, _ => nan
  | _, nan => nan
  | inf s, inf t => if s = t then inf s else nan
  | inf s, fin _ => inf s
  | fin _, inf t => inf t
  | fin x, fin y => fin (x + y)

/-- The `-` operator on numbers. -/
def sub : JSNum → JSNum → JSNum
  | nan, _ => nan
  | _, nan => nan
  | inf s, inf t => if s = t then nan else inf s
  | inf s, fin _ => inf s
  | fin _, inf t => inf (!t)
  | fin x, fin y => fin (x - y)

/-- The `*` operator on numbers. -/
def mul : JSNum → JSNum → JSNum
  | nan, _ => nan
  | _, nan => nan
  | inf s, inf t => inf (xor s t)
  | inf s, fin y => if y = 0 then nan else inf (xor s (decide (y < 0)))
  | fin x, inf t => if x = 0 then nan else inf (xor (decide (x < 0)) t)
  | fin x, fin y => fin (x * y)

/-- The `/` operator on numbers. -/
def div : JSNum → JSNum → JSNum
  | nan, _ => nan
  | _, nan => nan
  | inf _, inf _ => nan
  | inf s, fin y => inf (xor s (decide (y < 0)))
  | fin _, inf _ => fin 0
  | fin x, fin y =>
      if y = 0 then (if x = 0 then nan else inf (decide (x < 0))) else fin (x / y)

instance : Add JSNum := ⟨add⟩
instance : Sub JSNum := ⟨sub⟩
instance : Mul JSNum := ⟨mul⟩
instance : Div JSNum := ⟨div⟩

/-- The constant `Math.PI`. -/
def PI : JSNum := fin Real.pi

/-- The function `Math.sin`. -/
def sin : JSNum → JSNum
  | fin x => fin (Real.sin x)
  | _ => nan

/-- The function `Math.cos`. -/
def cos : JSNum → JSNum
  | fin x => fin (Real.cos x)
  | _ => nan

/-- The function `Math.sqrt`. -/
def sqrt : JSNum → JSNum
  | nan => nan
  | inf false => inf false
  | inf true => nan
  | fin x => if x < 0 then nan else fin (Real.sqrt x)

/-- The angle of the point `(x, y)`, in `(-π, π]`, as `Math.atan2(y, x)` gives it for finite
arguments. -/
def atan2Real (y x : ℝ) : ℝ :=
  if 0 < x then Real.arctan (y / x)
  else if x < 0 then
    (if 0 ≤ y then Real.arctan (y / x) + Real.pi else Real.arctan (y / x) - Real.pi)
  else if 0 < y then Real.pi / 2
  else if y < 0 then -(Real.pi / 2)
  else 0

/-- The function `Math.atan2(y, x)`. -/
def atan2 : JSNum → JSNum → JSNum
  | nan, _ => nan
  | _, nan => nan
  | fin y, fin x => fin (atan2Real y x)
  | fin _, inf false => fin 0
  | fin y, inf true => fin (if y < 0 then -Real.pi else Real.pi)
  | inf s, fin _ => fin (if s then -(Real.pi / 2) else Real.pi / 2)
  | inf s, inf false => fin (if s then -(Real.pi / 4) else Real.pi / 4)
  | inf s, inf true => fin (if s then -(3 * Real.pi / 4) else 3 * Real.pi / 4)

/-- The value of `parseFloat(n.toFixed(2))`: `toFixed` prints the sign and then the integer
`k` for which `k / 100` is closest to the magnitude (the larger one on a tie) with two
decimals, magnitudes from `10^21` on are printed in full, and `parseFloat` reads the text
back. -/
def parseFloatToFixed2 : JSNum → JSNum
  | nan => nan
  | inf s => inf s
  | fin x =>
      if x < 0 then
        (if (10 : ℝ) ^ 21 ≤ -x then fin x else fin (-((⌊100 * (-x) + 1 / 2⌋ : ℤ) : ℝ) / 100))
      else
        (if (10 : ℝ) ^ 21 ≤ x then fin x else fin (((⌊100 * x + 1 / 2⌋ : ℤ) : ℝ) / 100))

/-- The test `v > 0` that `Array.prototype.sort` applies to the value a comparator returns
(a `NaN` counts as `0`). -/
def isPositive : JSNum → Prop
  | nan => False
  | inf s => s = false
  | fin x => 0 < x

/-- The comparison `a <= b` of two numbers (false when either is `NaN`). -/
def le : JSNum → JSNum → Prop
  | fin x, fin y => x ≤ y
  | fin _, inf t => t = false
  | inf s, fin _ => s = true
  | inf s, inf t => s = true ∨ t = false
  | _, _ => False

/-- The comparison `a < b` of two numbers (false when either is `NaN`). -/
def lt : JSNum → JSNum → Prop
  | fin x, fin y => x < y
  | fin _, inf t => t = false
  | inf s, fin _ => s = true
  | inf s, inf t => s = true ∧ t = false
  | _, _ => False

/-- The place of a number on the extended real line (`NaN`, which has no place, is sent
to 0). -/
def key : JSNum → EReal
  | nan => 0
  | inf true => ⊥
  | inf false => ⊤
  | fin x => (x : EReal)

end JSNum

open JSNum

/-! ## The distance helper -/

/-- Helper `calculateDistance` (Haversine formula), `app.js` lines 21-31. -/
def calculateDistance (lat1 lon1 lat2 lon2 : JSNum) : JSNum :=
  let R := fin 6371
  let dLat := (lat2 - lat1) * PI / fin 180
  let dLon := (lon2 - lon1) * PI / fin 180
  let a :=
    sin (dLat / fin 2) * sin (dLat / fin 2) +
    cos (lat1 * PI / fin 180) * cos (lat2 * PI / fin 180) *
    sin (dLon / fin 2) * sin (dLon / fin 2)
  let c := fin 2 * atan2 (sqrt a) (sqrt (fin 1 - a))
  R * c

/-! ## The listing -/

/-- A row of the `schools` table as the driver returns it; the numeric columns hold finite
numbers. -/
structure School where
  id : ℕ
  name : String
  address : String
  latitude : ℝ
  longitude : ℝ

/-- A row with the added `distance` property (`{...school, distance}`). -/
structure SchoolWithDistance where
  school : School
  distance : JSNum

/-- The callback of `schools.map`, `app.js` lines 81-92. -/
def withDistance (userLat userLon : JSNum) (school : School) : SchoolWithDistance :=
  let distance := calculateDistance userLat userLon (fin school.latitude) (fin school.longitude)
  { school := school, distance := parseFloatToFixed2 distance }

/-- The comparator `(a, b) => a.distance - b.distance`, `app.js` line 95. -/
def compareFn (a b : SchoolWithDistance) : JSNum :=
  a.distance - b.distance

/-- Insertion of `a` in front of an arranged list: `a` moves behind `b` only when the
comparator says that `a` sorts after `b`. -/
def insertSorted {α : Type} (cmp : α → α → JSNum) (a : α) : List α → List α
  | [] => [a]
  | b :: l => if isPositive (cmp a b) then b :: insertSorted cmp a l else a :: b :: l

/-- `Array.prototype.sort(cmp)`: a stable sort.  For a consistent comparator the result is the
one arrangement that is ordered and keeps equal elements in their input order; it is built
here by inserting the elements from the last to the first. -/
def arraySort {α : Type} (cmp : α → α → JSNum) : List α → List α
  | [] => []
  | a :: l => insertSorted cmp a (arraySort cmp l)

/-- The computation of the `/listSchools` handler after the rows are read, `app.js`
lines 80-97: map every row to the row with its distance, then sort by that property. -/
def listSchools (userLat userLon : JSNum) (schools : List School) : List SchoolWithDistance :=
  let schoolsWithDistance := schools.map (withDistance userLat userLon)
  arraySort compareFn schoolsWithDistance

/-! ## Text to number

`parseFloat` and the string case of `ToNumber` (used by the global `isNaN`) read a decimal
literal from a text.  A literal below the overflow threshold is given its exact decimal value;
one at or above it is `Infinity`. -/

/-- The characters that `parseFloat` and `ToNumber` strip as white space (`WhiteSpace` and
`LineTerminator` of the language). -/
def isStrWhiteSpaceChar (c : Char) : Bool :=
  let n := c.toNat
  n == 0x09 || n == 0x0A || n == 0x0B || n == 0x0C || n == 0x0D || n == 0x20 || n == 0xA0 ||
    n == 0x1680 || (0x2000 ≤ n && n ≤ 0x200A) || n == 0x2028 || n == 0x2029 || n == 0x202F ||
    n == 0x205F || n == 0x3000 || n == 0xFEFF

/-- The number that a literal of the given magnitude denotes: a magnitude that rounds beyond
the largest finite double (from `2^1024 - 2^970` on) is `Infinity`; below that the magnitude is
kept exactly. -/
def ofMagnitude (x : ℝ) : JSNum :=
  if (2 : ℝ) ^ 1024 - (2 : ℝ) ^ 970 ≤ x then inf false else fin x

/-- The number written by a list of decimal digits. -/
def digitsToNat (ds : List Char) : ℕ :=
  ds.foldl (fun n c => 10 * n + (c.toNat - 48)) 0

/-- The text `Infinity` at the head of the input, if it stands there: the rest after it. -/
def dropInfinity : List Char → Option (List Char)
  | 'I' :: 'n' :: 'f' :: 'i' :: 'n' :: 'i' :: 't' :: 'y' :: rest => some rest
  | _ => none

/-- An `ExponentPart` (`e` or `E`, an optional sign, one digit or more) at the head of the
input: its value and the rest; when none stands there the exponent is 0 and nothing is
consumed. -/
def scanExponent (cs : List Char) : ℤ × List Char :=
  match cs with
  | c :: r =>
    if c == 'e' || c == 'E' then
      match r with
      | '+' :: r' =>
        if (r'.span Char.isDigit).1.isEmpty then (0, cs)
        else ((digitsToNat (r'.span Char.isDigit).1 : ℤ), (r'.span Char.isDigit).2)
      | '-' :: r' =>
        if (r'.span Char.isDigit).1.isEmpty then (0, cs)
        else (-(digitsToNat (r'.span Char.isDigit).1 : ℤ), (r'.span Char.isDigit).2)
      | _ =>
        if (r.span Char.isDigit).1.isEmpty then (0, cs)
        else ((digitsToNat (r.span Char.isDigit).1 : ℤ), (r.span Char.isDigit).2)
    else (0, cs)
  | [] => (0, [])

/-- The longest `StrUnsignedDecimalLiteral` at the head of the input (`Infinity`, or digits
with an optional fraction and exponent): its value and the rest, or `none` when the input does
not start with one. -/
def scanUnsignedDecimal (cs : List Char) : Option (JSNum × List Char) :=
  match dropInfinity cs with
  | some rest => some (inf false, rest)
  | none =>
    let intDs := (cs.span Char.isDigit).1
    match (cs.span Char.isDigit).2 with
    | '.' :: r1 =>
      let fracDs := (r1.span Char.isDigit).1
      if intDs.isEmpty && fracDs.isEmpty then none
      else
        let e := scanExponent (r1.span Char.isDigit).2
        some (ofMagnitude
          ((digitsToNat (intDs ++ fracDs) : ℝ) * (10 : ℝ) ^ (e.1 - (fracDs.length : ℤ))), e.2)
    | r1 =>
      if intDs.isEmpty then none
      else
        let e := scanExponent r1
        some (ofMagnitude ((digitsToNat intDs : ℝ) * (10 : ℝ) ^ e.1), e.2)

/-- The longest `StrDecimalLiteral` (an optional sign, then an unsigned literal) at the head of
the input. -/
def scanDecimal (cs : List Char) : Option (JSNum × List Char) :=
  match cs with
  | '+' :: r => scanUnsignedDecimal r
  | '-' :: r => (scanUnsignedDecimal r).map (fun p => (JSNum.neg p.1, p.2))
  | _ => scanUnsignedDecimal cs

/-- The global `parseFloat` on a text: leading white space is skipped, the longest decimal
literal at the head is read and what follows it is ignored; without such a literal the result
is `NaN`. -/
def parseFloat (s : String) : JSNum :=
  match scanDecimal (s.toList.dropWhile isStrWhiteSpaceChar) with
  | some (v, _) => v
  | none => nan

/-- The value of a digit in base 16, if the character is one. -/
def hexDigitValue (c : Char) : Option ℕ :=
  let n := c.toNat
  if 48 ≤ n && n ≤ 57 then some (n - 48)
  else if 97 ≤ n && n ≤ 102 then some (n - 87)
  else if 65 ≤ n && n ≤ 70 then some (n - 55)
  else none

/-- The number written by digits in the given base, if every character is a digit of it. -/
def digitsInBase (base : ℕ) (ds : List Char) : Option ℕ :=
  ds.foldl (fun acc c =>
    match acc, hexDigitValue c with
    | some n, some d => if d < base then some (base * n + d) else none
    | _, _ => none) (some 0)

/-- A `NonDecimalIntegerLiteral` (`0x`, `0o` or `0b` and one digit or more) that makes up the
whole input. -/
def radixLiteral : List Char → Option ℕ
  | '0' :: c :: d :: ds =>
    if c == 'x' || c == 'X' then digitsInBase 16 (d :: ds)
    else if c == 'o' || c == 'O' then digitsInBase 8 (d :: ds)
    else if c == 'b' || c == 'B' then digitsInBase 2 (d :: ds)
    else none
  | _ => none

/-- The abstract operation `StringToNumber`: white space is stripped at both ends; the empty
text is 0; a text that is a decimal literal, or a binary, octal or hexadecimal integer
literal, as a whole has its value; any other text is `NaN`. -/
def stringToNumber (s : String) : JSNum :=
  let cs := ((s.toList.dropWhile isStrWhiteSpaceChar).reverse.dropWhile
    isStrWhiteSpaceChar).reverse
  if cs.isEmpty then fin 0
  else
    match scanDecimal cs with
    | some (v, []) => v
    | _ =>
      match radixLiteral cs with
      | some n => ofMagnitude (n : ℝ)
      | none => nan

/-! ## Values of a request body -/

/-- A value found in a parsed JSON body, or `undefined` for a property that is absent.  A plain
object is given by its own properties, in order. -/
inductive JSVal where
  | undefined : JSVal
  | null : JSVal
  | bool (b : Bool) : JSVal
  | num (n : JSNum) : JSVal
  | str (s : String) : JSVal
  | arr (items : List JSVal) : JSVal
  | obj (fields : List (String × JSVal)) : JSVal

namespace JSVal

/-- The abstract operation `ToBoolean` (the operand of `!`). -/
def toBoolean : JSVal → Bool
  | undefined => false
  | null => false
  | bool b => b
  | num nan => false
  | num (inf _) => true
  | num (fin x) => decide (x ≠ 0)
  | str s => !s.toList.isEmpty
  | arr _ => true
  | obj _ => true

/-- The test `v === undefined`. -/
def isUndefined : JSVal → Bool
  | undefined => true
  | _ => false

/-- The object has an own property named `toString`.  Its value comes from JSON, so it is not
callable, and it hides `Object.prototype.toString`. -/
def hasOwnToString (fields : List (String × JSVal)) : Bool :=
  fields.any (fun f => f.1 == "toString")

mutual

/-- Turning the value into a primitive throws a `TypeError`.  For a plain object
`OrdinaryToPrimitive` finds no method that gives a primitive exactly when the object has an own
`toString` (the inherited `valueOf` returns the object itself); an array is joined, which
stringifies every element other than `null` and `undefined`. -/
def throwsOnToPrimitive : JSVal → Bool
  | obj fields => hasOwnToString fields
  | arr items => anyThrowsOnToPrimitive items
  | _ => false

/-- Some element of the list throws when it is turned into a primitive. -/
def anyThrowsOnToPrimitive : List JSVal → Bool
  | [] => false
  | x :: xs => throwsOnToPrimitive x || anyThrowsOnToPrimitive xs

end

/-- The number read from a value whose conversion to a primitive does not throw.  An array is
first turned into the text of its elements joined by commas and a plain object into
`[object Object]`: the empty array gives the empty text, an array of one element the text of
that element (empty for `null` and `undefined`; a number reads back as itself), and a text with
a comma or the text of an object is no numeric literal. -/
def toNumberValue : JSVal → JSNum
  | undefined => nan
  | null => fin 0
  | bool b => if b then fin 1 else fin 0
  | num n => n
  | str s => stringToNumber s
  | obj _ => nan
  | arr [] => fin 0
  | arr [undefined] => fin 0
  | arr [null] => fin 0
  | arr [bool _] => nan
  | arr [num n] => n
  | arr [str s] => stringToNumber s
  | arr [obj _] => nan
  | arr [arr ys] => toNumberValue (arr ys)
  | arr (_ :: _ :: _) => nan

/-- The abstract operation `ToNumber`; `none` stands for a thrown `TypeError`. -/
def toNumber (v : JSVal) : Option JSNum :=
  if throwsOnToPrimitive v then none else some (toNumberValue v)

/-- The global `isNaN(v)`: `ToNumber(v)` is `NaN`; `none` stands for a thrown `TypeError`. -/
def isNaN (v : JSVal) : Option Bool := (toNumber v).map JSNum.isNaN

end JSVal

/-! ## The store and the two handlers -/

/-- The bound parameters `[name, address, latitude, longitude]` of the `INSERT`. -/
structure InsertParams where
  name : JSVal
  address : JSVal
  latitude : JSVal
  longitude : JSVal

/-- A call made to the database driver. -/
inductive DriverCall where
  | createConnection : DriverCall
  | execute (params : InsertParams) : DriverCall
  | query : DriverCall
  | connectionEnd : DriverCall

/-- The backing store as the handlers see it: the connections that are open, the rows that
were inserted, and the calls made to the driver, oldest first. -/
structure Db where
  openConnections : ℕ
  inserted : List InsertParams
  calls : List DriverCall

/-- What the store does during one request: whether `createConnection` succeeds, and the
outcome of the statement (`none` when it throws; the `insertId` of an `INSERT`, the rows of a
`SELECT`).  `connection.end()` is taken to succeed. -/
structure StoreOutcome (α : Type) where
  connectOk : Bool
  result : Option α

/-- The JSON body of a response. -/
inductive ResponseBody where
  | error (message : String) : ResponseBody
  | created (message : String) (schoolId : ℕ) : ResponseBody
  | schools (rows : List SchoolWithDistance) : ResponseBody

/-- A response: the status code and the body. -/
structure Response where
  status : ℕ
  body : ResponseBody

/-- The body of a `POST /addSchool` request after the JSON middleware; a property that is
absent is `undefined`. -/
structure AddSchoolBody where
  name : JSVal
  address : JSVal
  latitude : JSVal
  longitude : JSVal

/-- The condition `isNaN(latitude) || isNaN(longitude)` of `app.js` line 45: the second call is
made only when the first gives `false`; `none` stands for a `TypeError` thrown by either call. -/
def isNaNGuard (latitude longitude : JSVal) : Option Bool :=
  match latitude.isNaN with
  | none => none
  | some true => some true
  | some false => longitude.isNaN

/-- Handler of `POST /addSchool`, `app.js` lines 36-64.  The result is the response and the
store after the request.  An exception inside the `try` block, thrown by `isNaN` or by the
driver, ends in the `catch` block, which answers 500. -/
def addSchoolHandler (body : AddSchoolBody) (store : StoreOutcome ℕ) (db : Db) : Response × Db :=
  let name := body.name
  let address := body.address
  let latitude := body.latitude
  let longitude := body.longitude
  if !name.toBoolean || !address.toBoolean || latitude.isUndefined || longitude.isUndefined then
    ({ status := 400, body := .error "All fields are required" }, db)
  else
    match isNaNGuard latitude longitude with
    | none => ({ status := 500, body := .error "Internal server error" }, db)
    | some true =>
      ({ status := 400, body := .error "Latitude and longitude must be numbers" }, db)
    | some false =>
      let db0 := { db with calls := db.calls ++ [.createConnection] }
      if !store.connectOk then
        ({ status := 500, body := .error "Internal server error" }, db0)
      else
        let db1 := { db0 with openConnections := db0.openConnections + 1 }
        let params : InsertParams :=
          { name := name, address := address, latitude := latitude, longitude := longitude }
        let db2 := { db1 with calls := db1.calls ++ [.execute params] }
        match store.result with
        | none => ({ status := 500, body := .error "Internal server error" }, db2)
        | some insertId =>
          let db3 := { db2 with inserted := db2.inserted ++ [params] }
          let db4 := { db3 with
            openConnections := db3.openConnections - 1
            calls := db3.calls ++ [.connectionEnd] }
          ({ status := 201, body := .created "School added successfully" insertId }, db4)

/-- The query string of a `GET /listSchools` request; a parameter that is absent is `none`. -/
structure ListSchoolsQuery where
  latitude : Option String
  longitude : Option String

/-- The call `parseFloat(req.query.x)`: a parameter that is absent is `undefined`, which
`parseFloat` reads as the text `undefined`. -/
def parseFloatParam : Option String → JSNum
  | none => parseFloat "undefined"
  | some s => parseFloat s

/-- Handler of `GET /listSchools`, `app.js` lines 67-102.  The result is the response and the
store after the request. -/
def listSchoolsHandler (query : ListSchoolsQuery) (store : StoreOutcome (List School)) (db : Db) :
    Response × Db :=
  let userLat := parseFloatParam query.latitude
  let userLon := parseFloatParam query.longitude
  if userLat.isNaN || userLon.isNaN then
    ({ status := 400, body := .error "Valid latitude and longitude parameters are required" }, db)
  else
    let db0 := { db with calls := db.calls ++ [.createConnection] }
    if !store.connectOk then
      ({ status := 500, body := .error "Internal server error" }, db0)
    else
      let db1 := { db0 with openConnections := db0.openConnections + 1 }
      let db2 := { db1 with calls := db1.calls ++ [.query] }
      match store.result with
      | none => ({ status := 500, body := .error "Internal server error" }, db2)
      | some schools =>
        let db3 := { db2 with
          openConnections := db2.openConnections - 1
          calls := db2.calls ++ [.connectionEnd] }
        ({ status := 200, body := .schools (listSchools userLat userLon schools) }, db3)

/-! ## The School invariant of the specification -/

/-- The invariant the specification gives for a persisted School: `name` and `address` are
non-empty text, `latitude` is a real number in [-90, 90] and `longitude` one in
[-180, 180]. -/
def SchoolInvariant (row : InsertParams) : Prop :=
  (∃ s : String, row.name = .str s ∧ s ≠ "") ∧
    (∃ s : String, row.address = .str s ∧ s ≠ "") ∧
    (∃ x : ℝ, row.latitude = .num (fin x) ∧ -90 ≤ x ∧ x ≤ 90) ∧
    (∃ x : ℝ, row.longitude = .num (fin x) ∧ -180 ≤ x ∧ x ≤ 180)

/-- The bodies that pass both validation steps of `addSchoolHandler` (`app.js` lines 41 and
45): `name` and `address` are truthy, `latitude` and `longitude` are not `undefined` and
`isNaN` returns `false` for each of them. -/
def PassesValidation (body : AddSchoolBody) : Prop :=
  body.name.toBoolean = true ∧ body.address.toBoolean = true ∧
    body.latitude.isUndefined = false ∧ body.longitude.isUndefined = false ∧
    body.latitude.isNaN = some false ∧ body.longitude.isNaN = some false

/-! ## Sample requests -/

/-- A store without rows, open connections or earlier calls. -/
def emptyDb : Db := { openConnections := 0, inserted := [], calls := [] }

/-- The store accepts the connection and the `INSERT`, which gets the id 7. -/
def insertSucceeds : StoreOutcome ℕ := { connectOk := true, result := some 7 }

/-- The store accepts the connection and the `INSERT` statement throws. -/
def insertThrows : StoreOutcome ℕ := { connectOk := true, result := none }

/-- The store accepts the connection and the `SELECT` returns no row. -/
def selectSucceeds : StoreOutcome (List School) := { connectOk := true, result := some [] }

/-- The store accepts the connection and the `SELECT` statement throws. -/
def selectThrows : StoreOutcome (List School) := { connectOk := true, result := none }

/-- The body `{name: "A", address: "X", latitude: 0, longitude: 0}`. -/
def validBody : AddSchoolBody :=
  { name := .str "A", address := .str "X", latitude := .num (fin 0), longitude := .num (fin 0) }

/-- The body `{name: "A", address: "X", latitude: "abc", longitude: 0}`. -/
def abcLatitudeBody : AddSchoolBody :=
  { name := .str "A", address := .str "X", latitude := .str "abc", longitude := .num (fin 0) }

/-- The body `{name: "A", address: "X", latitude: null, longitude: 0}`. -/
def nullLatitudeBody : AddSchoolBody :=
  { name := .str "A", address := .str "X", latitude := .null, longitude := .num (fin 0) }

/-- The body `{name: "A", address: "X", latitude: true, longitude: 0}`. -/
def trueLatitudeBody : AddSchoolBody :=
  { name := .str "A", address := .str "X", latitude := .bool true, longitude := .num (fin 0) }

/-- The body `{name: "A", address: "X", latitude: "", longitude: 0}`. -/
def emptyTextLatitudeBody : AddSchoolBody :=
  { name := .str "A", address := .str "X", latitude := .str "", longitude := .num (fin 0) }

/-- The body `{name: "A", address: "X", latitude: 1000, longitude: 0}`. -/
def outOfRangeBody : AddSchoolBody :=
  { name := .str "A", address := .str "X", latitude := .num (fin 1000),
    longitude := .num (fin 0) }

/-- The body `{name: true, address: "X", latitude: 0, longitude: 0}`. -/
def trueNameBody : AddSchoolBody :=
  { name := .bool true, address := .str "X", latitude := .num (fin 0),
    longitude := .num (fin 0) }

/-- The body `{name: "A", address: "X", latitude: {"toString": 1}, longitude: "abc"}`. -/
def ownToStringBody : AddSchoolBody :=
  { name := .str "A", address := .str "X", latitude := .obj [("toString", .num (fin 1))],
    longitude := .str "abc" }

/-- The query `?latitude=Infinity&longitude=0`. -/
def infinityQuery : ListSchoolsQuery := { latitude := some "Infinity", longitude := some "0" }

/-- The query `?latitude=12abc&longitude=0`. -/
def trailingTextQuery : ListSchoolsQuery := { latitude := some "12abc", longitude := some "0" }

/-- The query `?longitude=0`, without a latitude. -/
def missingLatitudeQuery : ListSchoolsQuery := { latitude := none, longitude := some "0" }

/-- The query `?latitude=0&longitude=0`. -/
def originQuery : ListSchoolsQuery := { latitude := some "0", longitude := some "0" }

/-! ## The great-circle distance of the specification -/

/-- Degrees to radians. -/
def toRadians (deg : ℝ) : ℝ := deg * Real.pi / 180

/-- The cosine of the central angle between two points given in degrees (spherical law of
cosines). -/
def centralCos (lat1 lon1 lat2 lon2 : ℝ) : ℝ :=
  Real.sin (toRadians lat1) * Real.sin (toRadians lat2) +
    Real.cos (toRadians lat1) * Real.cos (toRadians lat2) *
      Real.cos (toRadians lon2 - toRadians lon1)

/-- The quantity `a` of `calculateDistance` on finite arguments. -/
def haversineA (lat1 lon1 lat2 lon2 : ℝ) : ℝ :=
  Real.sin ((lat2 - lat1) * Real.pi / 180 / 2) * Real.sin ((lat2 - lat1) * Real.pi / 180 / 2) +
    Real.cos (lat1 * Real.pi / 180) * Real.cos (lat2 * Real.pi / 180) *
      Real.sin ((lon2 - lon1) * Real.pi / 180 / 2) * Real.sin ((lon2 - lon1) * Real.pi / 180 / 2)

/-- The great-circle distance in kilometres on a sphere of radius 6371 km between two points
given in degrees. -/
def greatCircleKm (lat1 lon1 lat2 lon2 : ℝ) : ℝ :=
  6371 * Real.arccos (centralCos lat1 lon1 lat2 lon2)

/-- Rounding of a non-negative real to two decimals, halves upwards. -/
def roundHundredths (x : ℝ) : ℝ := ((⌊100 * x + 1 / 2⌋ : ℤ) : ℝ) / 100

/-- What `toFixed(2)` and `parseFloat` make of a magnitude: the magnitude itself from `10^21`
on, below that its rounding to two decimals. -/
def roundMagnitude (m : ℝ) : ℝ :=
  if (10 : ℝ) ^ 21 ≤ m then m else ((⌊100 * m + 1 / 2⌋ : ℤ) : ℝ) / 100

/-- A school at latitude 0, longitude 0. -/
def originSchool : School :=
  { id := 1, name := "A", address := "X", latitude := 0, longitude := 0 }

/-- A school at latitude 0, longitude 1. -/
def oneDegreeSchool : School :=
  { id := 2, name := "B", address := "Y", latitude := 0, longitude := 1 }

/-- The store accepts the connection and the `SELECT` returns the rows of `originSchool` and
`oneDegreeSchool`. -/
def selectTwoSchools : StoreOutcome (List School) :=
  { connectOk := true, result := some [originSchool, oneDegreeSchool] }

/-- A school at latitude 0, longitude 0.00001 (about 1.1 m east of the origin). -/
def nearbySchool : School :=
  { id := 3, name := "C", address := "Z", latitude := 0, longitude := 1 / 100000 }

/-! ## Facts about the distance helper -/

theorem haversineA_eq (lat1 lon1 lat2 lon2 : ℝ) :
    haversineA lat1 lon1 lat2 lon2 = (1 - centralCos lat1 lon1 lat2 lon2) / 2 := by
  unfold haversineA centralCos toRadians
  have h1 : Real.cos ((lat2 - lat1) * Real.pi / 180) =
      Real.cos (lat2 * Real.pi / 180) * Real.cos (lat1 * Real.pi / 180) +
        Real.sin (lat2 * Real.pi / 180) * Real.sin (lat1 * Real.pi / 180) := by
    rw [← Real.cos_sub]; congr 1; ring
  have h2 := Real.sin_sq_eq_half_sub ((lat2 - lat1) * Real.pi / 180 / 2)
  have h3 := Real.sin_sq_eq_half_sub ((lon2 - lon1) * Real.pi / 180 / 2)
  have e2 : 2 * ((lat2 - lat1) * Real.pi / 180 / 2) = (lat2 - lat1) * Real.pi / 180 := by ring
  have e3 : 2 * ((lon2 - lon1) * Real.pi / 180 / 2) =
      lon2 * Real.pi / 180 - lon1 * Real.pi / 180 := by ring
  rw [e2, h1] at h2
  rw [e3] at h3
  linear_combination h2 + Real.cos (lat1 * Real.pi / 180) * Real.cos (lat2 * Real.pi / 180) * h3

theorem centralCos_le_one (lat1 lon1 lat2 lon2 : ℝ) : centralCos lat1 lon1 lat2 lon2 ≤ 1 := by
  unfold centralCos
  have hc := Real.cos_le_one (toRadians lon2 - toRadians lon1)
  have hc' := Real.neg_one_le_cos (toRadians lon2 - toRadians lon1)
  have hm := Real.cos_le_one (toRadians lat1 - toRadians lat2)
  have hp := Real.neg_one_le_cos (toRadians lat1 + toRadians lat2)
  rw [Real.cos_sub] at hm
  rw [Real.cos_add] at hp
  nlinarith [mul_nonneg (sub_nonneg.2 hm) (sub_nonneg.2 hc'),
    mul_nonneg (sub_nonneg.2 hp) (sub_nonneg.2 hc)]

theorem neg_one_le_centralCos (lat1 lon1 lat2 lon2 : ℝ) :
    -1 ≤ centralCos lat1 lon1 lat2 lon2 := by
  unfold centralCos
  have hc := Real.cos_le_one (toRadians lon2 - toRadians lon1)
  have hc' := Real.neg_one_le_cos (toRadians lon2 - toRadians lon1)
  have hm := Real.neg_one_le_cos (toRadians lat1 - toRadians lat2)
  have hp := Real.cos_le_one (toRadians lat1 + toRadians lat2)
  rw [Real.cos_sub] at hm
  rw [Real.cos_add] at hp
  nlinarith [mul_nonneg (sub_nonneg.2 hm) (sub_nonneg.2 hc'),
    mul_nonneg (sub_nonneg.2 hp) (sub_nonneg.2 hc)]

theorem haversineA_nonneg (lat1 lon1 lat2 lon2 : ℝ) : 0 ≤ haversineA lat1 lon1 lat2 lon2 := by
  rw [haversineA_eq]; linarith [centralCos_le_one lat1 lon1 lat2 lon2]

theorem haversineA_le_one (lat1 lon1 lat2 lon2 : ℝ) : haversineA lat1 lon1 lat2 lon2 ≤ 1 := by
  rw [haversineA_eq]; linarith [neg_one_le_centralCos lat1 lon1 lat2 lon2]

theorem two_mul_atan2Real_sqrt (a : ℝ) (h0 : 0 ≤ a) (h1 : a ≤ 1) :
    2 * atan2Real (Real.sqrt a) (Real.sqrt (1 - a)) = Real.arccos (1 - 2 * a) := by
  set t := Real.arccos (1 - 2 * a) / 2 with ht
  have ht0 : 0 ≤ t := by have := Real.arccos_nonneg (1 - 2 * a); positivity
  have htpi : t ≤ Real.pi / 2 := by have := Real.arccos_le_pi (1 - 2 * a); linarith
  have hcos2 : Real.cos (2 * t) = 1 - 2 * a := by
    rw [ht, mul_div_cancel₀ _ (two_ne_zero)]
    exact Real.cos_arccos (by linarith) (by linarith)
  have hs0 : 0 ≤ Real.sin t := Real.sin_nonneg_of_nonneg_of_le_pi ht0 (by linarith [Real.pi_pos])
  have hc0 : 0 ≤ Real.cos t := Real.cos_nonneg_of_neg_pi_div_two_le_of_le
    (by linarith [Real.pi_pos]) htpi
  have hsa : a = Real.sin t ^ 2 := by
    have := Real.sin_sq_eq_half_sub t; rw [hcos2] at this; linarith
  have hca : 1 - a = Real.cos t ^ 2 := by
    have := Real.sin_sq_add_cos_sq t; linarith
  have hsq : Real.sqrt a = Real.sin t := by rw [hsa]; exact Real.sqrt_sq hs0
  have hcq : Real.sqrt (1 - a) = Real.cos t := by rw [hca]; exact Real.sqrt_sq hc0
  have hgoal : atan2Real (Real.sin t) (Real.cos t) = t := by
    unfold atan2Real
    rcases hc0.lt_or_eq with hpos | hzero
    · rw [if_pos hpos, ← Real.tan_eq_sin_div_cos]
      have hlt : t < Real.pi / 2 := by
        rcases htpi.lt_or_eq with h | h
        · exact h
        · rw [h, Real.cos_pi_div_two] at hpos; exact absurd hpos (lt_irrefl _)
      exact Real.arctan_tan (by linarith [Real.pi_pos]) hlt
    · have hs1 : Real.sin t = 1 := by
        have := Real.sin_sq_add_cos_sq t
        rw [← hzero] at this
        have h2 : Real.sin t ^ 2 = 1 := by linarith
        nlinarith
      have htv : t = Real.pi / 2 := by
        have := Real.arccos_cos ht0 (by linarith [Real.pi_pos] : t ≤ Real.pi)
        rw [← hzero, Real.arccos_zero] at this
        exact this.symm
      rw [← hzero, hs1]
      simp [htv]
  rw [hsq, hcq, hgoal, ht]; ring

theorem fin_sub_fin (x y : ℝ) : fin x - fin y = fin (x - y) := rfl

theorem fin_add_fin (x y : ℝ) : fin x + fin y = fin (x + y) := rfl

theorem fin_mul_fin (x y : ℝ) : fin x * fin y = fin (x * y) := rfl

theorem fin_div_fin (x y : ℝ) (hy : y ≠ 0) : fin x / fin y = fin (x / y) := by
  show JSNum.div (fin x) (fin y) = fin (x / y)
  simp [JSNum.div, hy]

theorem sqrt_fin (x : ℝ) (hx : 0 ≤ x) : JSNum.sqrt (fin x) = fin (Real.sqrt x) := by
  simp [JSNum.sqrt, not_lt.2 hx]

/-- On finite arguments `calculateDistance` is finite, and its value is the radius times the
angle whose cosine is `centralCos`. -/
theorem calculateDistance_fin (lat1 lon1 lat2 lon2 : ℝ) :
    calculateDistance (fin lat1) (fin lon1) (fin lat2) (fin lon2) =
      fin (6371 * Real.arccos (centralCos lat1 lon1 lat2 lon2)) := by
  have h0 := haversineA_nonneg lat1 lon1 lat2 lon2
  have h1 := haversineA_le_one lat1 lon1 lat2 lon2
  have hA : JSNum.sin (fin ((lat2 - lat1) * Real.pi / 180 / 2)) *
        JSNum.sin (fin ((lat2 - lat1) * Real.pi / 180 / 2)) +
      JSNum.cos (fin (lat1 * Real.pi / 180)) * JSNum.cos (fin (lat2 * Real.pi / 180)) *
        JSNum.sin (fin ((lon2 - lon1) * Real.pi / 180 / 2)) *
        JSNum.sin (fin ((lon2 - lon1) * Real.pi / 180 / 2)) =
      fin (haversineA lat1 lon1 lat2 lon2) := rfl
  have h180 : (180 : ℝ) ≠ 0 := by norm_num
  have h2 : (2 : ℝ) ≠ 0 := by norm_num
  unfold calculateDistance
  simp only [PI, fin_sub_fin, fin_mul_fin, fin_div_fin _ _ h180, fin_div_fin _ _ h2, hA,
    sqrt_fin _ h0, sqrt_fin _ (sub_nonneg.2 h1), JSNum.atan2]
  rw [two_mul_atan2Real_sqrt _ h0 h1, haversineA_eq]
  have e : 1 - 2 * ((1 - centralCos lat1 lon1 lat2 lon2) / 2) =
      centralCos lat1 lon1 lat2 lon2 := by ring
  rw [e]

theorem centralCos_self (lat lon : ℝ) : centralCos lat lon lat lon = 1 := by
  unfold centralCos
  rw [sub_self, Real.cos_zero, mul_one]
  have := Real.sin_sq_add_cos_sq (toRadians lat)
  nlinarith

theorem centralCos_symm (lat1 lon1 lat2 lon2 : ℝ) :
    centralCos lat1 lon1 lat2 lon2 = centralCos lat2 lon2 lat1 lon1 := by
  unfold centralCos
  have h : toRadians lon2 - toRadians lon1 = -(toRadians lon1 - toRadians lon2) := by ring
  rw [h, Real.cos_neg]
  ring

theorem centralCos_equator (d : ℝ) : centralCos 0 0 0 d = Real.cos (toRadians d) := by
  unfold centralCos
  simp [toRadians]

/-- Along the equator, from longitude `0` to longitude `d` degrees with `0 ≤ d ≤ 180`, the
helper returns the arc length `6371 * (d * π / 180)`. -/
theorem calculateDistance_equator (d : ℝ) (h0 : 0 ≤ d) (h1 : d ≤ 180) :
    calculateDistance (fin 0) (fin 0) (fin 0) (fin d) = fin (6371 * (d * Real.pi / 180)) := by
  rw [calculateDistance_fin, centralCos_equator, toRadians, Real.arccos_cos]
  · have := Real.pi_pos; positivity
  · have := Real.pi_pos
    calc d * Real.pi / 180 ≤ 180 * Real.pi / 180 := by gcongr
      _ = Real.pi := by ring

theorem nan_mul (x : JSNum) : nan * x = nan := by cases x <;> rfl

theorem mul_nan (x : JSNum) : x * nan = nan := by cases x <;> rfl

theorem isPositive_sub_nan : ¬ isPositive (nan - nan) := fun h => h

theorem nan_add (x : JSNum) : nan + x = nan := by cases x <;> rfl

theorem add_nan (x : JSNum) : x + nan = nan := by cases x <;> rfl

theorem sub_not_fin_left (a b : JSNum) (h : ∀ x, a ≠ fin x) : ∀ x, a - b ≠ fin x := by
  rcases a with _ | s | x
  · intro x; cases b <;> exact JSNum.noConfusion
  · rcases b with _ | t | y
    · intro x; exact JSNum.noConfusion
    · intro x; show (if s = t then nan else inf s) ≠ fin x
      split_ifs <;> exact JSNum.noConfusion
    · intro x; exact JSNum.noConfusion
  · exact absurd rfl (h x)

theorem sub_not_fin_right (a b : JSNum) (h : ∀ x, b ≠ fin x) : ∀ x, a - b ≠ fin x := by
  rcases b with _ | t | y
  · intro x; cases a <;> exact JSNum.noConfusion
  · rcases a with _ | s | x
    · intro x; exact JSNum.noConfusion
    · intro x; show (if s = t then nan else inf s) ≠ fin x
      split_ifs <;> exact JSNum.noConfusion
    · intro x; exact JSNum.noConfusion
  · exact absurd rfl (h y)

theorem scale_not_fin (a : JSNum) (c : ℝ) (h : ∀ x, a ≠ fin x) :
    ∀ x, a * PI / fin c ≠ fin x := by
  rcases a with _ | s | x
  · intro x; exact JSNum.noConfusion
  · intro x
    show JSNum.div (JSNum.mul (inf s) (fin Real.pi)) (fin c) ≠ fin x
    simp [JSNum.mul, JSNum.div, Real.pi_ne_zero]
  · exact absurd rfl (h x)

theorem sin_half_not_fin (a : JSNum) (h : ∀ x, a ≠ fin x) : JSNum.sin (a / fin 2) = nan := by
  rcases a with _ | s | x
  · rfl
  · rfl
  · exact absurd rfl (h x)

theorem cos_not_fin (a : JSNum) (h : ∀ x, a ≠ fin x) : JSNum.cos a = nan := by
  rcases a with _ | s | x
  · rfl
  · rfl
  · exact absurd rfl (h x)

/-- A value that is not a finite number in any argument makes the helper return `NaN`. -/
theorem calculateDistance_nonfinite (lat1 lon1 lat2 lon2 : JSNum)
    (h : (∀ x, lat1 ≠ fin x) ∨ (∀ x, lon1 ≠ fin x) ∨ (∀ x, lat2 ≠ fin x) ∨ (∀ x, lon2 ≠ fin x)) :
    calculateDistance lat1 lon1 lat2 lon2 = nan := by
  have key : JSNum.sin ((lat2 - lat1) * PI / fin 180 / fin 2) = nan ∨
      JSNum.sin ((lon2 - lon1) * PI / fin 180 / fin 2) = nan := by
    rcases h with h | h | h | h
    · exact Or.inl (sin_half_not_fin _ (scale_not_fin _ _ (sub_not_fin_right _ _ h)))
    · exact Or.inr (sin_half_not_fin _ (scale_not_fin _ _ (sub_not_fin_right _ _ h)))
    · exact Or.inl (sin_half_not_fin _ (scale_not_fin _ _ (sub_not_fin_left _ _ h)))
    · exact Or.inr (sin_half_not_fin _ (scale_not_fin _ _ (sub_not_fin_left _ _ h)))
  unfold calculateDistance
  rcases key with k | k
  · simp only [k, nan_mul, nan_add]; rfl
  · simp only [k, mul_nan, add_nan]; rfl

/-! ## Facts about the sort -/

theorem insertSorted_perm {α : Type} (cmp : α → α → JSNum) (a : α) (l : List α) :
    List.Perm (insertSorted cmp a l) (a :: l) := by
  induction l with
  | nil => exact List.Perm.refl _
  | cons b l ih =>
    unfold insertSorted
    split_ifs
    · exact (List.Perm.cons b ih).trans (List.Perm.swap a b l)
    · exact List.Perm.refl _

theorem arraySort_perm {α : Type} (cmp : α → α → JSNum) (l : List α) :
    List.Perm (arraySort cmp l) l := by
  induction l with
  | nil => exact List.Perm.refl _
  | cons a l ih => exact (insertSorted_perm cmp a _).trans (List.Perm.cons a ih)

theorem insertSorted_pairwise {α β : Type} [LinearOrder β] (cmp : α → α → JSNum) (k : α → β)
    (P : α → Prop)
    (hk : ∀ x y, P x → P y → (isPositive (cmp x y) ↔ k y < k x)) (a : α) (l : List α)
    (ha : P a) (hl : ∀ x ∈ l, P x) (hs : l.Pairwise (fun x y => k x ≤ k y)) :
    (insertSorted cmp a l).Pairwise (fun x y => k x ≤ k y) := by
  induction l with
  | nil => simp [insertSorted]
  | cons b l ih =>
    have hb : P b := hl b (List.mem_cons_self b l)
    have hl' : ∀ x ∈ l, P x := fun x hx => hl x (List.mem_cons_of_mem b hx)
    rw [List.pairwise_cons] at hs
    unfold insertSorted
    split_ifs with h
    · have hlt : k b < k a := (hk a b ha hb).1 h
      rw [List.pairwise_cons]
      refine ⟨?_, ih hl' hs.2⟩
      intro y hy
      rcases List.mem_cons.1 ((insertSorted_perm cmp a l).mem_iff.1 hy) with rfl | hy'
      · exact hlt.le
      · exact hs.1 y hy'
    · have hle : k a ≤ k b := not_lt.1 (fun hlt => h ((hk a b ha hb).2 hlt))
      rw [List.pairwise_cons]
      refine ⟨?_, List.pairwise_cons.2 hs⟩
      intro y hy
      rcases List.mem_cons.1 hy with rfl | hy'
      · exact hle
      · exact hle.trans (hs.1 y hy')

theorem arraySort_pairwise {α β : Type} [LinearOrder β] (cmp : α → α → JSNum) (k : α → β)
    (P : α → Prop)
    (hk : ∀ x y, P x → P y → (isPositive (cmp x y) ↔ k y < k x)) (l : List α)
    (hl : ∀ x ∈ l, P x) : (arraySort cmp l).Pairwise (fun x y => k x ≤ k y) := by
  induction l with
  | nil => simp [arraySort]
  | cons a l ih =>
    have hl' : ∀ x ∈ l, P x := fun x hx => hl x (List.mem_cons_of_mem a hx)
    exact insertSorted_pairwise cmp k P hk a _ (hl a (List.mem_cons_self a l))
      (fun x hx => hl' x ((arraySort_perm cmp l).mem_iff.1 hx)) (ih hl')

theorem insertSorted_filter {α β : Type} [LinearOrder β] (cmp : α → α → JSNum) (k : α → β)
    (P : α → Prop)
    (hk : ∀ x y, P x → P y → (isPositive (cmp x y) ↔ k y < k x)) (d : β) (a : α) (l : List α)
    (ha : P a) (hl : ∀ x ∈ l, P x) :
    (insertSorted cmp a l).filter (fun x => decide (k x = d)) =
      (a :: l).filter (fun x => decide (k x = d)) := by
  induction l with
  | nil => rfl
  | cons b l ih =>
    have hb : P b := hl b (List.mem_cons_self b l)
    have hl' : ∀ x ∈ l, P x := fun x hx => hl x (List.mem_cons_of_mem b hx)
    unfold insertSorted
    split_ifs with h
    · have hlt : k b < k a := (hk a b ha hb).1 h
      rw [List.filter_cons, ih hl']
      by_cases hbd : k b = d
      · have had : k a ≠ d := fun had => by rw [hbd, had] at hlt; exact lt_irrefl _ hlt
        simp [List.filter_cons, hbd, had]
      · simp [List.filter_cons, hbd]
    · rfl

theorem arraySort_filter {α β : Type} [LinearOrder β] (cmp : α → α → JSNum) (k : α → β)
    (P : α → Prop)
    (hk : ∀ x y, P x → P y → (isPositive (cmp x y) ↔ k y < k x)) (d : β) (l : List α)
    (hl : ∀ x ∈ l, P x) :
    (arraySort cmp l).filter (fun x => decide (k x = d)) =
      l.filter (fun x => decide (k x = d)) := by
  induction l with
  | nil => rfl
  | cons a l ih =>
    have hl' : ∀ x ∈ l, P x := fun x hx => hl x (List.mem_cons_of_mem a hx)
    show (insertSorted cmp a (arraySort cmp l)).filter _ = _
    rw [insertSorted_filter cmp k P hk d a _ (hl a (List.mem_cons_self a l))
      (fun x hx => hl' x ((arraySort_perm cmp l).mem_iff.1 hx))]
    rw [List.filter_cons, ih hl', List.filter_cons]

/-! ## Facts about the listing -/

theorem greatCircleKm_nonneg (lat1 lon1 lat2 lon2 : ℝ) : 0 ≤ greatCircleKm lat1 lon1 lat2 lon2 := by
  unfold greatCircleKm
  have := Real.arccos_nonneg (centralCos lat1 lon1 lat2 lon2)
  positivity

theorem greatCircleKm_lt (lat1 lon1 lat2 lon2 : ℝ) :
    greatCircleKm lat1 lon1 lat2 lon2 < (10 : ℝ) ^ 21 := by
  unfold greatCircleKm
  have h := Real.arccos_le_pi (centralCos lat1 lon1 lat2 lon2)
  have hpi := Real.pi_le_four
  have : 6371 * Real.arccos (centralCos lat1 lon1 lat2 lon2) ≤ 6371 * 4 := by nlinarith
  have h2 : (6371 : ℝ) * 4 < (10 : ℝ) ^ 21 := by norm_num
  linarith

theorem parseFloatToFixed2_fin (x : ℝ) (h0 : 0 ≤ x) (h1 : x < (10 : ℝ) ^ 21) :
    parseFloatToFixed2 (fin x) = fin (roundHundredths x) := by
  simp only [parseFloatToFixed2, roundHundredths]
  rw [if_neg (not_lt.2 h0), if_neg (not_le.2 h1)]

theorem withDistance_fin (userLat userLon : ℝ) (s : School) :
    withDistance (fin userLat) (fin userLon) s =
      { school := s
        distance := fin (roundHundredths (greatCircleKm userLat userLon s.latitude s.longitude)) } := by
  unfold withDistance
  simp only [calculateDistance_fin]
  rw [← greatCircleKm, parseFloatToFixed2_fin _ (greatCircleKm_nonneg _ _ _ _)
    (greatCircleKm_lt _ _ _ _)]

theorem roundHundredths_close (x : ℝ) : |roundHundredths x - x| ≤ 1 / 200 := by
  unfold roundHundredths
  have h1 := Int.floor_le (100 * x + 1 / 2)
  have h2 := Int.lt_floor_add_one (100 * x + 1 / 2)
  rw [abs_le]
  constructor <;> linarith

theorem listSchools_perm (userLat userLon : JSNum) (schools : List School) :
    List.Perm (listSchools userLat userLon schools) (schools.map (withDistance userLat userLon)) :=
  arraySort_perm compareFn _

theorem isPositive_sub_iff (m n : JSNum) (hm : m ≠ nan) (hn : n ≠ nan) :
    isPositive (m - n) ↔ n.key < m.key := by
  show isPositive (JSNum.sub m n) ↔ _
  rcases m with _ | s | x
  · exact absurd rfl hm
  · rcases n with _ | t | y
    · exact absurd rfl hn
    · cases s <;> cases t <;> simp [JSNum.sub, isPositive, JSNum.key]
    · cases s <;> simp [JSNum.sub, isPositive, JSNum.key, EReal.coe_lt_top]
  · rcases n with _ | t | y
    · exact absurd rfl hn
    · cases t <;> simp [JSNum.sub, isPositive, JSNum.key, EReal.bot_lt_coe]
    · simp [JSNum.sub, isPositive, JSNum.key, EReal.coe_lt_coe_iff]

theorem le_iff_key_le (m n : JSNum) (hm : m ≠ nan) (hn : n ≠ nan) :
    JSNum.le m n ↔ m.key ≤ n.key := by
  rcases m with _ | s | x
  · exact absurd rfl hm
  · rcases n with _ | t | y
    · exact absurd rfl hn
    · cases s <;> cases t <;> simp [JSNum.le, JSNum.key]
    · cases s <;> simp [JSNum.le, JSNum.key, EReal.coe_ne_top]
  · rcases n with _ | t | y
    · exact absurd rfl hn
    · cases t <;> simp [JSNum.le, JSNum.key, EReal.coe_ne_bot]
    · simp [JSNum.le, JSNum.key, EReal.coe_le_coe_iff]

theorem eq_of_key_eq (m n : JSNum) (hm : m ≠ nan) (hn : n ≠ nan) (h : m.key = n.key) :
    m = n := by
  rcases m with _ | s | x
  · exact absurd rfl hm
  · rcases n with _ | t | y
    · exact absurd rfl hn
    · cases s <;> cases t <;> simp [JSNum.key] at h ⊢
    · cases s <;> simp [JSNum.key] at h
  · rcases n with _ | t | y
    · exact absurd rfl hn
    · cases t <;> simp [JSNum.key] at h
    · simp only [JSNum.key, EReal.coe_eq_coe_iff] at h
      rw [h]

theorem compareFn_isPositive (x y : SchoolWithDistance) (hx : x.distance ≠ nan)
    (hy : y.distance ≠ nan) :
    isPositive (compareFn x y) ↔ y.distance.key < x.distance.key :=
  isPositive_sub_iff _ _ hx hy

theorem listSchools_all_ne_nan (userLat userLon : JSNum) (schools : List School)
    (h : ∀ s ∈ schools, (withDistance userLat userLon s).distance ≠ nan) :
    ∀ x ∈ schools.map (withDistance userLat userLon), x.distance ≠ nan := by
  intro x hx
  rcases List.mem_map.1 hx with ⟨s, hs, rfl⟩
  exact h s hs

theorem listSchools_mem_ne_nan (userLat userLon : JSNum) (schools : List School)
    (h : ∀ s ∈ schools, (withDistance userLat userLon s).distance ≠ nan) :
    ∀ x ∈ listSchools userLat userLon schools, x.distance ≠ nan := fun x hx =>
  listSchools_all_ne_nan userLat userLon schools h x
    ((listSchools_perm userLat userLon schools).mem_iff.1 hx)

theorem listSchools_pairwise_key (userLat userLon : JSNum) (schools : List School)
    (h : ∀ s ∈ schools, (withDistance userLat userLon s).distance ≠ nan) :
    (listSchools userLat userLon schools).Pairwise
      (fun x y => x.distance.key ≤ y.distance.key) :=
  arraySort_pairwise compareFn (fun x => x.distance.key) (fun x => x.distance ≠ nan)
    compareFn_isPositive _ (listSchools_all_ne_nan userLat userLon schools h)

theorem listSchools_pairwise_le (userLat userLon : JSNum) (schools : List School)
    (h : ∀ s ∈ schools, (withDistance userLat userLon s).distance ≠ nan) :
    (listSchools userLat userLon schools).Pairwise
      (fun x y => JSNum.le x.distance y.distance) := by
  refine List.Pairwise.imp_of_mem ?_ (listSchools_pairwise_key userLat userLon schools h)
  intro x y hx hy hxy
  exact (le_iff_key_le _ _ (listSchools_mem_ne_nan _ _ _ h x hx)
    (listSchools_mem_ne_nan _ _ _ h y hy)).2 hxy

theorem listSchools_filter (userLat userLon : JSNum) (schools : List School)
    (h : ∀ s ∈ schools, (withDistance userLat userLon s).distance ≠ nan) (d : JSNum) :
    (listSchools userLat userLon schools).filter (fun x => decide (x.distance = d)) =
      (schools.map (withDistance userLat userLon)).filter
        (fun x => decide (x.distance = d)) := by
  have hall := listSchools_all_ne_nan userLat userLon schools h
  have hall' := listSchools_mem_ne_nan userLat userLon schools h
  by_cases hd : d = nan
  · have hne : ∀ x : SchoolWithDistance, x.distance ≠ nan → decide (x.distance = d) = false := by
      intro x hx
      rw [decide_eq_false_iff_not, hd]
      exact hx
    rw [List.filter_congr (fun x hx => hne x (hall' x hx)),
      List.filter_congr (fun x hx => hne x (hall x hx))]
    simp
  · have hiff : ∀ x : SchoolWithDistance, x.distance ≠ nan →
        decide (x.distance = d) = decide (x.distance.key = d.key) := by
      intro x hx
      rw [decide_eq_decide]
      constructor
      · intro e; rw [e]
      · intro e; exact eq_of_key_eq _ _ hx hd e
    rw [List.filter_congr (fun x hx => hiff x (hall' x hx)),
      List.filter_congr (fun x hx => hiff x (hall x hx))]
    exact arraySort_filter compareFn (fun x => x.distance.key) (fun x => x.distance ≠ nan)
      compareFn_isPositive d.key _ hall

theorem roundMagnitude_nonneg {m : ℝ} (h : 0 ≤ m) : 0 ≤ roundMagnitude m := by
  unfold roundMagnitude
  split_ifs
  · exact h
  · have : (0 : ℤ) ≤ ⌊100 * m + 1 / 2⌋ := Int.floor_nonneg.2 (by linarith)
    have h2 : (0 : ℝ) ≤ ((⌊100 * m + 1 / 2⌋ : ℤ) : ℝ) := by exact_mod_cast this
    positivity

theorem roundMagnitude_mono {a b : ℝ} (h : a ≤ b) : roundMagnitude a ≤ roundMagnitude b := by
  unfold roundMagnitude
  split_ifs with ha hb hb
  · exact h
  · exact absurd (ha.trans h) hb
  · have h1 := Int.floor_le (100 * a + 1 / 2)
    have h2 : ⌊100 * a + 1 / 2⌋ < (10 : ℤ) ^ 23 + 1 := by
      have : ((⌊100 * a + 1 / 2⌋ : ℤ) : ℝ) < (((10 : ℤ) ^ 23 + 1 : ℤ) : ℝ) := by
        push_cast
        push_neg at ha
        linarith
      exact_mod_cast this
    have h3 : ((⌊100 * a + 1 / 2⌋ : ℤ) : ℝ) ≤ (10 : ℝ) ^ 23 := by
      have : ⌊100 * a + 1 / 2⌋ ≤ (10 : ℤ) ^ 23 := Int.lt_add_one_iff.1 h2
      exact_mod_cast this
    have h4 : ((⌊100 * a + 1 / 2⌋ : ℤ) : ℝ) / 100 ≤ (10 : ℝ) ^ 21 := by
      rw [div_le_iff₀ (by norm_num)]
      calc ((⌊100 * a + 1 / 2⌋ : ℤ) : ℝ) ≤ (10 : ℝ) ^ 23 := h3
        _ = (10 : ℝ) ^ 21 * 100 := by norm_num
    exact h4.trans hb
  · have : ⌊100 * a + 1 / 2⌋ ≤ ⌊100 * b + 1 / 2⌋ := Int.floor_le_floor (by linarith)
    have h2 : ((⌊100 * a + 1 / 2⌋ : ℤ) : ℝ) ≤ ((⌊100 * b + 1 / 2⌋ : ℤ) : ℝ) := by
      exact_mod_cast this
    linarith

theorem parseFloatToFixed2_fin_eq (x : ℝ) :
    parseFloatToFixed2 (fin x) =
      fin (if x < 0 then -roundMagnitude (-x) else roundMagnitude x) := by
  simp only [parseFloatToFixed2, roundMagnitude]
  split_ifs
  · rw [neg_neg]
  · rw [neg_div]
  · rfl
  · rfl

/-- The conversion `parseFloat(d.toFixed(2))` keeps the order of two numbers, up to ties. -/
theorem parseFloatToFixed2_mono (m n : JSNum) (h : JSNum.lt m n) :
    JSNum.le (parseFloatToFixed2 m) (parseFloatToFixed2 n) := by
  rcases m with _ | s | a
  · exact h.elim
  · rcases n with _ | t | b
    · exact h.elim
    · exact Or.inl h.1
    · rw [parseFloatToFixed2_fin_eq]; exact h
  · rcases n with _ | t | b
    · exact h.elim
    · rw [parseFloatToFixed2_fin_eq]; exact h
    · have hab : a < b := h
      rw [parseFloatToFixed2_fin_eq, parseFloatToFixed2_fin_eq]
      show (if a < 0 then -roundMagnitude (-a) else roundMagnitude a) ≤
        (if b < 0 then -roundMagnitude (-b) else roundMagnitude b)
      split_ifs with ha hb hb
      · have := roundMagnitude_mono (show -b ≤ -a by linarith)
        linarith
      · have h1 := roundMagnitude_nonneg (show (0 : ℝ) ≤ -a by linarith)
        have h2 := roundMagnitude_nonneg (not_lt.1 hb)
        linarith
      · exact absurd (lt_of_lt_of_le' hb (le_of_lt hab |>.trans' (not_lt.1 ha))) (lt_irrefl _)
      · exact roundMagnitude_mono hab.le

/-- With an infinite reference latitude every row gets the distance `NaN`. -/
theorem withDistance_infinite_latitude (negative : Bool) (userLon : JSNum) (s : School) :
    withDistance (inf negative) userLon s = { school := s, distance := nan } := by
  unfold withDistance
  rw [calculateDistance_nonfinite _ _ _ _ (Or.inl (fun x => JSNum.noConfusion))]
  rfl

theorem roundHundredths_zero : roundHundredths 0 = 0 := by
  unfold roundHundredths
  have : ⌊(100 : ℝ) * 0 + 1 / 2⌋ = 0 := by
    rw [Int.floor_eq_iff]; norm_num
  rw [this]; norm_num

theorem roundHundredths_one_degree : roundHundredths (6371 * (1 * Real.pi / 180)) = 111.19 := by
  unfold roundHundredths
  have h1 := Real.pi_gt_d6
  have h2 := Real.pi_lt_d6
  have : ⌊(100 : ℝ) * (6371 * (1 * Real.pi / 180)) + 1 / 2⌋ = 11119 := by
    rw [Int.floor_eq_iff]
    constructor
    · push_cast; linarith
    · push_cast; linarith
  rw [this]; norm_num

theorem roundHundredths_metre : roundHundredths (6371 * (1 / 100000 * Real.pi / 180)) = 0 := by
  unfold roundHundredths
  have h1 := Real.pi_pos
  have h2 := Real.pi_le_four
  have : ⌊(100 : ℝ) * (6371 * (1 / 100000 * Real.pi / 180)) + 1 / 2⌋ = 0 := by
    rw [Int.floor_eq_iff]
    constructor
    · push_cast; linarith
    · push_cast; linarith
  rw [this]; norm_num

/-- The row built for a school on the equator, seen from latitude 0, longitude 0. -/
theorem withDistance_equator (s : School) (d : ℝ) (hlat : s.latitude = 0) (hlon : s.longitude = d)
    (h0 : 0 ≤ d) (h1 : d ≤ 180) :
    withDistance (fin 0) (fin 0) s =
      { school := s, distance := fin (roundHundredths (6371 * (d * Real.pi / 180))) } := by
  have hpi := Real.pi_pos
  have hpi4 := Real.pi_le_four
  unfold withDistance
  simp only [hlat, hlon, calculateDistance_equator d h0 h1]
  rw [parseFloatToFixed2_fin]
  · positivity
  · have : 6371 * (d * Real.pi / 180) ≤ 6371 * (180 * 4 / 180) := by gcongr
    have h2 : (6371 : ℝ) * (180 * 4 / 180) < (10 : ℝ) ^ 21 := by norm_num
    linarith

theorem withDistance_originSchool :
    withDistance (fin 0) (fin 0) originSchool = { school := originSchool, distance := fin 0 } := by
  rw [withDistance_equator originSchool 0 rfl rfl le_rfl (by norm_num)]
  simp [roundHundredths_zero]

theorem withDistance_oneDegreeSchool :
    withDistance (fin 0) (fin 0) oneDegreeSchool =
      { school := oneDegreeSchool, distance := fin 111.19 } := by
  rw [withDistance_equator oneDegreeSchool 1 rfl rfl (by norm_num) (by norm_num),
    roundHundredths_one_degree]

theorem withDistance_nearbySchool :
    withDistance (fin 0) (fin 0) nearbySchool = { school := nearbySchool, distance := fin 0 } := by
  rw [withDistance_equator nearbySchool (1 / 100000) rfl rfl (by norm_num) (by norm_num),
    roundHundredths_metre]

/-- In an arrangement ordered by the distance value, a row with a strictly smaller value stands
at a smaller position than a row with a larger one. -/
theorem index_lt_of_pairwise (l : List SchoolWithDistance)
    (hs : l.Pairwise (fun x y => x.distance.key ≤ y.distance.key))
    (x y : SchoolWithDistance) (hxy : x.distance.key < y.distance.key) (i j : ℕ)
    (hi : l[i]? = some x) (hj : l[j]? = some y) : i < j := by
  rcases List.getElem?_eq_some.1 hi with ⟨hi', hix⟩
  rcases List.getElem?_eq_some.1 hj with ⟨hj', hjy⟩
  by_contra hnot
  rcases Nat.lt_or_ge j i with hlt | hge
  · have := List.pairwise_iff_getElem.1 hs j i hj' hi' hlt
    rw [hix, hjy] at this
    exact absurd hxy (not_lt.2 this)
  · have hij : i = j := le_antisymm hge (not_lt.1 hnot)
    subst hij
    rw [hix] at hjy
    rw [hjy] at hxy
    exact lt_irrefl _ hxy

/-! ## Facts about the listing handler -/

theorem isNaN_ofMagnitude (x : ℝ) : (ofMagnitude x).isNaN = false := by
  unfold ofMagnitude; split_ifs <;> rfl

/-- With both parameters read as numbers, a connection that opens and a `SELECT` that returns
rows, the handler answers 200 with the listing and closes the connection. -/
theorem listSchoolsHandler_of_rows (query : ListSchoolsQuery) (db : Db) (schools : List School)
    (h1 : (parseFloatParam query.latitude).isNaN = false)
    (h2 : (parseFloatParam query.longitude).isNaN = false) :
    listSchoolsHandler query { connectOk := true, result := some schools } db =
      ({ status := 200
         body := .schools (listSchools (parseFloatParam query.latitude)
           (parseFloatParam query.longitude) schools) },
        { openConnections := db.openConnections + 1 - 1
          inserted := db.inserted
          calls := db.calls ++ [.createConnection] ++ [.query] ++ [.connectionEnd] }) := by
  unfold listSchoolsHandler
  rw [if_neg (by rw [h1, h2]; decide)]
  rfl

/-- With both parameters read as numbers, a connection that opens and a `SELECT` that throws,
the handler answers 500 and the connection stays open. -/
theorem listSchoolsHandler_of_throw (query : ListSchoolsQuery) (db : Db)
    (h1 : (parseFloatParam query.latitude).isNaN = false)
    (h2 : (parseFloatParam query.longitude).isNaN = false) :
    listSchoolsHandler query { connectOk := true, result := none } db =
      ({ status := 500, body := .error "Internal server error" },
        { openConnections := db.openConnections + 1
          inserted := db.inserted
          calls := db.calls ++ [.createConnection] ++ [.query] }) := by
  unfold listSchoolsHandler
  rw [if_neg (by rw [h1, h2]; decide)]
  rfl

/-! ## The claims about the listing and the distance helper -/

/-- C1, as stated, fails: the request `?latitude=Infinity&longitude=0` is accepted, every row
gets the distance `NaN`, and in the listing of two rows the adjacent pair does not satisfy
`distance(x) <= distance(y)`. -/
theorem listSchools_infinite_reference_counterexample :
    (listSchoolsHandler infinityQuery selectTwoSchools emptyDb).1.status = 200 ∧
      (listSchoolsHandler infinityQuery selectTwoSchools emptyDb).1.body =
        .schools [{ school := originSchool, distance := nan },
          { school := oneDegreeSchool, distance := nan }] ∧
      ¬ List.Chain' (fun x y : SchoolWithDistance => JSNum.le x.distance y.distance)
        [{ school := originSchool, distance := nan },
          { school := oneDegreeSchool, distance := nan }] := by
  have hh : listSchoolsHandler infinityQuery selectTwoSchools emptyDb = _ :=
    listSchoolsHandler_of_rows infinityQuery emptyDb [originSchool, oneDegreeSchool] rfl
      (isNaN_ofMagnitude _)
  have hl : parseFloatParam infinityQuery.latitude = inf false := rfl
  rw [hh, hl]
  refine ⟨rfl, ?_, ?_⟩
  · simp [listSchools, arraySort, insertSorted, compareFn, withDistance_infinite_latitude,
      isPositive_sub_nan]
  · simp [JSNum.le]

/-- C1, amended: for every reference and every list of stored schools for which no computed
`distance` property is `NaN`, the result of `listSchools` is in ascending order of that property
(every adjacent pair, and in fact every pair in list order, satisfies
`distance(x) <= distance(y)`), and for every value of the property the rows carrying it stand in
the result in the order they have in the input. -/
theorem listSchools_sorted_stable (userLat userLon : JSNum) (schools : List School)
    (h : ∀ s ∈ schools, (withDistance userLat userLon s).distance ≠ nan) :
    List.Chain' (fun x y => JSNum.le x.distance y.distance)
        (listSchools userLat userLon schools) ∧
      List.Pairwise (fun x y => JSNum.le x.distance y.distance)
        (listSchools userLat userLon schools) ∧
      ∀ d : JSNum,
        (listSchools userLat userLon schools).filter (fun x => decide (x.distance = d)) =
          (schools.map (withDistance userLat userLon)).filter
            (fun x => decide (x.distance = d)) :=
  ⟨(listSchools_pairwise_le userLat userLon schools h).chain',
    listSchools_pairwise_le userLat userLon schools h,
    listSchools_filter userLat userLon schools h⟩

/-- Instance of the amended C1: the listing of `[oneDegreeSchool, originSchool]` seen from
(0, 0), whose distances are 111.19 and 0. -/
theorem listSchools_sorted_stable_witness :
    List.Chain' (fun x y => JSNum.le x.distance y.distance)
        (listSchools (fin 0) (fin 0) [oneDegreeSchool, originSchool]) ∧
      List.Pairwise (fun x y => JSNum.le x.distance y.distance)
        (listSchools (fin 0) (fin 0) [oneDegreeSchool, originSchool]) ∧
      ∀ d : JSNum,
        (listSchools (fin 0) (fin 0) [oneDegreeSchool, originSchool]).filter
            (fun x => decide (x.distance = d)) =
          ([oneDegreeSchool, originSchool].map (withDistance (fin 0) (fin 0))).filter
            (fun x => decide (x.distance = d)) :=
  listSchools_sorted_stable (fin 0) (fin 0) [oneDegreeSchool, originSchool] (by
    intro s hs
    rcases List.mem_cons.1 hs with rfl | hs
    · rw [withDistance_oneDegreeSchool]; exact JSNum.noConfusion
    · rw [List.mem_singleton.1 hs, withDistance_originSchool]; exact JSNum.noConfusion)

/-- C2: for every reference coordinate and every list of stored schools, the result of
`listSchools` has the length of the input and is a permutation of the input rows, each with its
stored fields and a `distance` property equal to `calculateDistance(reference, school)` put
through `toFixed(2)`; for a finite reference that property is a whole number of hundredths within
0.005 of the computed distance. -/
theorem listSchools_perm_of_input (userLat userLon : JSNum) (schools : List School) :
    (listSchools userLat userLon schools).length = schools.length ∧
      List.Perm (listSchools userLat userLon schools)
        (schools.map fun s =>
          { school := s
            distance := parseFloatToFixed2
              (calculateDistance userLat userLon (fin s.latitude) (fin s.longitude)) }) ∧
      List.Perm ((listSchools userLat userLon schools).map (fun x => x.school)) schools ∧
      ∀ lat lon : ℝ, ∀ s : School, ∃ dist rounded : ℝ, ∃ n : ℤ,
        calculateDistance (fin lat) (fin lon) (fin s.latitude) (fin s.longitude) = fin dist ∧
          (withDistance (fin lat) (fin lon) s).distance = fin rounded ∧
          rounded = (n : ℝ) / 100 ∧ |rounded - dist| ≤ 1 / 200 := by
  have hp := listSchools_perm userLat userLon schools
  refine ⟨?_, hp, ?_, ?_⟩
  · rw [hp.length_eq, List.length_map]
  · have := hp.map (fun x => x.school)
    refine this.trans ?_
    rw [List.map_map]
    have hid : ((fun x : SchoolWithDistance => x.school) ∘ withDistance userLat userLon) = id := by
      funext s; rfl
    rw [hid, List.map_id]
  · intro lat lon s
    refine ⟨greatCircleKm lat lon s.latitude s.longitude,
      roundHundredths (greatCircleKm lat lon s.latitude s.longitude),
      ⌊100 * greatCircleKm lat lon s.latitude s.longitude + 1 / 2⌋, ?_, ?_, rfl, ?_⟩
    · exact calculateDistance_fin _ _ _ _
    · rw [withDistance_fin]
    · exact roundHundredths_close _

/-- C3, as stated, fails: seen from (0, 0), the school at (0, 0) has unrounded distance 0 and the
school at (0, 0.00001) a strictly larger one, both round to 0, and the listing of the input in
which the farther school comes first returns the farther school first. -/
theorem listSchools_ranks_unrounded_counterexample :
    calculateDistance (fin 0) (fin 0) (fin originSchool.latitude) (fin originSchool.longitude) =
        fin 0 ∧
      calculateDistance (fin 0) (fin 0) (fin nearbySchool.latitude) (fin nearbySchool.longitude) =
        fin (6371 * (1 / 100000 * Real.pi / 180)) ∧
      (0 : ℝ) < 6371 * (1 / 100000 * Real.pi / 180) ∧
      listSchools (fin 0) (fin 0) [nearbySchool, originSchool] =
        [{ school := nearbySchool, distance := fin 0 },
          { school := originSchool, distance := fin 0 }] := by
  refine ⟨?_, ?_, ?_, ?_⟩
  · have := calculateDistance_equator 0 le_rfl (by norm_num)
    simpa [originSchool] using this
  · exact calculateDistance_equator (1 / 100000) (by norm_num) (by norm_num)
  · have := Real.pi_pos; positivity
  · simp [listSchools, arraySort, insertSorted, compareFn, withDistance_originSchool,
      withDistance_nearbySchool, fin_sub_fin, isPositive]

/-- C3, amended: `listSchools` ranks by the distance rounded to 2 decimals.  For every reference
and every list of stored schools for which no computed `distance` property is `NaN`, and two
stored schools `x` and `y`: if the unrounded distance to `x` is strictly less than that to `y`
and the two rounded `distance` properties differ, then both rows are in the result and every
occurrence of the row of `x` stands before every occurrence of the row of `y`. -/
theorem listSchools_ranks_rounded (userLat userLon : JSNum) (schools : List School)
    (x y : School) (hx : x ∈ schools) (hy : y ∈ schools)
    (hnan : ∀ s ∈ schools, (withDistance userLat userLon s).distance ≠ nan)
    (hlt : JSNum.lt (calculateDistance userLat userLon (fin x.latitude) (fin x.longitude))
      (calculateDistance userLat userLon (fin y.latitude) (fin y.longitude)))
    (hne : (withDistance userLat userLon x).distance ≠ (withDistance userLat userLon y).distance) :
    withDistance userLat userLon x ∈ listSchools userLat userLon schools ∧
      withDistance userLat userLon y ∈ listSchools userLat userLon schools ∧
      ∀ i j : ℕ,
        (listSchools userLat userLon schools)[i]? = some (withDistance userLat userLon x) →
          (listSchools userLat userLon schools)[j]? = some (withDistance userLat userLon y) →
          i < j := by
  have hp := listSchools_perm userLat userLon schools
  refine ⟨hp.mem_iff.2 (List.mem_map_of_mem _ hx), hp.mem_iff.2 (List.mem_map_of_mem _ hy), ?_⟩
  have hle : JSNum.le (withDistance userLat userLon x).distance
      (withDistance userLat userLon y).distance := parseFloatToFixed2_mono _ _ hlt
  have hkey := (le_iff_key_le _ _ (hnan x hx) (hnan y hy)).1 hle
  have hlt' : (withDistance userLat userLon x).distance.key <
      (withDistance userLat userLon y).distance.key :=
    lt_of_le_of_ne hkey (fun e => hne (eq_of_key_eq _ _ (hnan x hx) (hnan y hy) e))
  exact index_lt_of_pairwise _ (listSchools_pairwise_key userLat userLon schools hnan) _ _ hlt'

/-- Instance of the amended C3: seen from (0, 0), in the listing of the input
`[oneDegreeSchool, originSchool]` the row of the school at (0, 0) stands before the row of the
school at (0, 1). -/
theorem listSchools_ranks_rounded_witness :
    withDistance (fin 0) (fin 0) originSchool ∈
        listSchools (fin 0) (fin 0) [oneDegreeSchool, originSchool] ∧
      withDistance (fin 0) (fin 0) oneDegreeSchool ∈
        listSchools (fin 0) (fin 0) [oneDegreeSchool, originSchool] ∧
      ∀ i j : ℕ,
        (listSchools (fin 0) (fin 0) [oneDegreeSchool, originSchool])[i]? =
            some (withDistance (fin 0) (fin 0) originSchool) →
          (listSchools (fin 0) (fin 0) [oneDegreeSchool, originSchool])[j]? =
            some (withDistance (fin 0) (fin 0) oneDegreeSchool) →
          i < j :=
  listSchools_ranks_rounded (fin 0) (fin 0) [oneDegreeSchool, originSchool] originSchool
    oneDegreeSchool (by simp) (by simp)
    (by
      intro s hs
      rcases List.mem_cons.1 hs with rfl | hs
      · rw [withDistance_oneDegreeSchool]; exact JSNum.noConfusion
      · rw [List.mem_singleton.1 hs, withDistance_originSchool]; exact JSNum.noConfusion)
    (by
      have h0 : calculateDistance (fin 0) (fin 0) (fin originSchool.latitude)
          (fin originSchool.longitude) = fin (6371 * (0 * Real.pi / 180)) :=
        calculateDistance_equator 0 le_rfl (by norm_num)
      have h1 : calculateDistance (fin 0) (fin 0) (fin oneDegreeSchool.latitude)
          (fin oneDegreeSchool.longitude) = fin (6371 * (1 * Real.pi / 180)) :=
        calculateDistance_equator 1 (by norm_num) (by norm_num)
      rw [h0, h1]
      show 6371 * (0 * Real.pi / 180) < 6371 * (1 * Real.pi / 180)
      have := Real.pi_pos
      nlinarith)
    (by rw [withDistance_originSchool, withDistance_oneDegreeSchool]
        intro h; injection h with h; norm_num at h)

/-- C4 at the failing input: lines 29-30 of `calculateDistance` turn a value of `a` above 1
into `NaN`.  For the value `a = 1 + 2^-52` the square root of `1 - a` is taken of a negative
number, and `NaN` goes through `Math.atan2` and the two products. -/
theorem calculateDistance_tail_nan_above_one :
    fin 6371 *
        (fin 2 *
          JSNum.atan2 (JSNum.sqrt (fin (1 + 1 / 2 ^ 52)))
            (JSNum.sqrt (fin 1 - fin (1 + 1 / 2 ^ 52)))) =
      nan := by
  have hneg : (1 : ℝ) - (1 + 1 / 2 ^ 52) < 0 := by norm_num
  have h1 : JSNum.sqrt (fin 1 - fin (1 + 1 / 2 ^ 52)) = nan := by
    rw [fin_sub_fin]
    simp only [JSNum.sqrt, if_pos hneg]
  have h2 : JSNum.sqrt (fin (1 + 1 / 2 ^ 52)) = fin (Real.sqrt (1 + 1 / 2 ^ 52)) :=
    sqrt_fin _ (by norm_num)
  rw [h1, h2]
  have h3 : JSNum.atan2 (fin (Real.sqrt (1 + 1 / 2 ^ 52))) nan = nan := rfl
  rw [h3, mul_nan, mul_nan]

/-- C5: for every point `(lat, lon)` with finite coordinates, in particular every valid one with
`lat` in [-90, 90] and `lon` in [-180, 180], `calculateDistance(lat, lon, lat, lon)` is 0. -/
theorem calculateDistance_self (lat lon : ℝ) :
    calculateDistance (fin lat) (fin lon) (fin lat) (fin lon) = fin 0 := by
  rw [calculateDistance_fin, centralCos_self, Real.arccos_one, mul_zero]

/-- C6: `calculateDistance` is symmetric in its two points, for all numbers (finite or not). -/
theorem calculateDistance_symm (lat1 lon1 lat2 lon2 : JSNum) :
    calculateDistance lat1 lon1 lat2 lon2 = calculateDistance lat2 lon2 lat1 lon1 := by
  by_cases h : (∀ x, lat1 ≠ fin x) ∨ (∀ x, lon1 ≠ fin x) ∨ (∀ x, lat2 ≠ fin x) ∨
      (∀ x, lon2 ≠ fin x)
  · rw [calculateDistance_nonfinite _ _ _ _ h, calculateDistance_nonfinite]
    rcases h with h | h | h | h
    · exact Or.inr (Or.inr (Or.inl h))
    · exact Or.inr (Or.inr (Or.inr h))
    · exact Or.inl h
    · exact Or.inr (Or.inl h)
  · simp only [not_or, not_forall, not_not] at h
    obtain ⟨⟨x1, h1⟩, ⟨y1, h2⟩, ⟨x2, h3⟩, ⟨y2, h4⟩⟩ := h
    rw [h1, h2, h3, h4, calculateDistance_fin, calculateDistance_fin, centralCos_symm]

/-! ## The claims about the two handlers -/

theorem addSchoolHandler_of_missing (body : AddSchoolBody) (store : StoreOutcome ℕ) (db : Db)
    (h : (!body.name.toBoolean || !body.address.toBoolean || body.latitude.isUndefined ||
      body.longitude.isUndefined) = true) :
    addSchoolHandler body store db =
      ({ status := 400, body := .error "All fields are required" }, db) := by
  unfold addSchoolHandler
  rw [if_pos h]

theorem addSchoolHandler_of_guard (body : AddSchoolBody) (store : StoreOutcome ℕ) (db : Db)
    (h : ¬ (!body.name.toBoolean || !body.address.toBoolean || body.latitude.isUndefined ||
      body.longitude.isUndefined) = true)
    (hg : isNaNGuard body.latitude body.longitude ≠ some false) :
    (isNaNGuard body.latitude body.longitude = some true ∧
        addSchoolHandler body store db =
          ({ status := 400, body := .error "Latitude and longitude must be numbers" }, db)) ∨
      (isNaNGuard body.latitude body.longitude = none ∧
        addSchoolHandler body store db =
          ({ status := 500, body := .error "Internal server error" }, db)) := by
  unfold addSchoolHandler
  rw [if_neg h]
  rcases hv : isNaNGuard body.latitude body.longitude with _ | b
  · exact Or.inr ⟨rfl, rfl⟩
  · cases b
    · exact absurd hv hg
    · exact Or.inl ⟨rfl, rfl⟩

theorem passesValidation_iff (body : AddSchoolBody) :
    PassesValidation body ↔
      (¬ (!body.name.toBoolean || !body.address.toBoolean || body.latitude.isUndefined ||
        body.longitude.isUndefined) = true) ∧
      isNaNGuard body.latitude body.longitude = some false := by
  unfold PassesValidation isNaNGuard
  constructor
  · rintro ⟨h1, h2, h3, h4, h5, h6⟩
    simp [h1, h2, h3, h4, h5, h6]
  · rintro ⟨h, hg⟩
    simp only [Bool.or_eq_true, Bool.not_eq_true', not_or, Bool.not_eq_false,
      Bool.not_eq_true] at h
    refine ⟨h.1.1.1, h.1.1.2, h.1.2, h.2, ?_⟩
    rcases hl : body.latitude.isNaN with _ | b
    · rw [hl] at hg; exact absurd hg (by simp)
    · cases b
      · rw [hl] at hg; exact ⟨rfl, hg⟩
      · rw [hl] at hg; exact absurd hg (by simp)

theorem addSchoolHandler_of_passes (body : AddSchoolBody) (store : StoreOutcome ℕ) (db : Db)
    (h : PassesValidation body) :
    (addSchoolHandler body store db).1.status ≠ 400 ∧
      ((addSchoolHandler body store db).2.inserted = db.inserted ∨
        (addSchoolHandler body store db).2.inserted =
          db.inserted ++
            [(⟨body.name, body.address, body.latitude, body.longitude⟩ : InsertParams)]) := by
  obtain ⟨h1, hg⟩ := (passesValidation_iff body).1 h
  unfold addSchoolHandler
  rw [if_neg h1]
  simp only [hg]
  rcases store with ⟨c, r⟩
  cases c <;> cases r <;> simp

/-- A body whose `latitude` is an object with an own `toString` makes `isNaN` throw: the answer
is 500 and the store is left as it was, whatever `longitude` is. -/
theorem addSchoolHandler_ownToStringBody :
    addSchoolHandler ownToStringBody insertSucceeds emptyDb =
      ({ status := 500, body := .error "Internal server error" }, emptyDb) := rfl

/-- C7, as stated, fails: with `latitude` the JSON value `null`, the boolean `true` or the
empty text, none of them a number, the body passes the validation, the `INSERT` is executed and
the response is 201. -/
theorem addSchool_non_numeric_counterexample :
    (addSchoolHandler nullLatitudeBody insertSucceeds emptyDb).1.status = 201 ∧
      (addSchoolHandler nullLatitudeBody insertSucceeds emptyDb).2.inserted =
        [(⟨.str "A", .str "X", .null, .num (fin 0)⟩ : InsertParams)] ∧
      (addSchoolHandler trueLatitudeBody insertSucceeds emptyDb).1.status = 201 ∧
      (addSchoolHandler trueLatitudeBody insertSucceeds emptyDb).2.inserted =
        [(⟨.str "A", .str "X", .bool true, .num (fin 0)⟩ : InsertParams)] ∧
      (addSchoolHandler emptyTextLatitudeBody insertSucceeds emptyDb).1.status = 201 ∧
      (addSchoolHandler emptyTextLatitudeBody insertSucceeds emptyDb).2.inserted =
        [(⟨.str "A", .str "X", .str "", .num (fin 0)⟩ : InsertParams)] :=
  ⟨rfl, rfl, rfl, rfl, rfl, rfl⟩

/-- C7, amended: for every `addSchool` body in which any of `name`, `address`, `latitude`,
`longitude` is absent, or in which the guard `isNaN(latitude) || isNaN(longitude)` evaluates to
true (`isNaN(latitude)` returns true, as for the text `abc`, or it returns false and
`isNaN(longitude)` returns true), the response is 400 with an error body and the store is left
as it was: no call to the driver, no row inserted. -/
theorem addSchool_rejects_absent_or_nan (body : AddSchoolBody) (store : StoreOutcome ℕ) (db : Db)
    (h : body.name = .undefined ∨ body.address = .undefined ∨ body.latitude = .undefined ∨
      body.longitude = .undefined ∨ body.latitude.isNaN = some true ∨
      (body.latitude.isNaN = some false ∧ body.longitude.isNaN = some true)) :
    (addSchoolHandler body store db).1.status = 400 ∧
      (∃ msg, (addSchoolHandler body store db).1.body = .error msg) ∧
      (addSchoolHandler body store db).2 = db := by
  by_cases hc : (!body.name.toBoolean || !body.address.toBoolean || body.latitude.isUndefined ||
      body.longitude.isUndefined) = true
  · rw [addSchoolHandler_of_missing body store db hc]
    exact ⟨rfl, ⟨_, rfl⟩, rfl⟩
  · have hg : isNaNGuard body.latitude body.longitude = some true := by
      rcases h with h | h | h | h | h | h
      · exact absurd (by rw [h]; rfl) hc
      · exact absurd (by rw [h]; simp [JSVal.toBoolean]) hc
      · exact absurd (by rw [h]; simp [JSVal.isUndefined]) hc
      · exact absurd (by rw [h]; simp [JSVal.isUndefined]) hc
      · unfold isNaNGuard; rw [h]
      · unfold isNaNGuard; rw [h.1, h.2]
    rcases addSchoolHandler_of_guard body store db hc (by rw [hg]; simp) with ⟨_, h1⟩ | ⟨h0, _⟩
    · rw [h1]
      exact ⟨rfl, ⟨_, rfl⟩, rfl⟩
    · rw [hg] at h0; exact absurd h0 (by simp)

/-- Instance of the amended C7: the body with `latitude: "abc"` is answered with 400 and the
store is left as it was. -/
theorem addSchool_rejects_absent_or_nan_witness :
    (addSchoolHandler abcLatitudeBody insertSucceeds emptyDb).1.status = 400 ∧
      (∃ msg, (addSchoolHandler abcLatitudeBody insertSucceeds emptyDb).1.body = .error msg) ∧
      (addSchoolHandler abcLatitudeBody insertSucceeds emptyDb).2 = emptyDb :=
  addSchool_rejects_absent_or_nan abcLatitudeBody insertSucceeds emptyDb
    (Or.inr (Or.inr (Or.inr (Or.inr (Or.inl rfl)))))

/-- C8, as stated, fails: the body with `latitude: 1000` is inserted although 1000 is outside
[-90, 90], and so is the body whose `name` is the boolean `true`, which is no text. -/
theorem addSchool_invariant_counterexample :
    (addSchoolHandler outOfRangeBody insertSucceeds emptyDb).1.status = 201 ∧
      (addSchoolHandler outOfRangeBody insertSucceeds emptyDb).2.inserted =
        [(⟨.str "A", .str "X", .num (fin 1000), .num (fin 0)⟩ : InsertParams)] ∧
      ¬ SchoolInvariant ⟨.str "A", .str "X", .num (fin 1000), .num (fin 0)⟩ ∧
      (addSchoolHandler trueNameBody insertSucceeds emptyDb).1.status = 201 ∧
      (addSchoolHandler trueNameBody insertSucceeds emptyDb).2.inserted =
        [(⟨.bool true, .str "X", .num (fin 0), .num (fin 0)⟩ : InsertParams)] ∧
      ¬ SchoolInvariant ⟨.bool true, .str "X", .num (fin 0), .num (fin 0)⟩ := by
  refine ⟨rfl, rfl, ?_, rfl, rfl, ?_⟩
  · rintro ⟨_, _, ⟨x, hx, _, hle⟩, _⟩
    have hx' : (1000 : ℝ) = x := by
      injection hx with hx; injection hx with hx
    rw [← hx'] at hle
    norm_num at hle
  · rintro ⟨⟨s, hs, _⟩, _⟩
    exact JSVal.noConfusion hs

/-- C8, amended: the rows after a request are the rows before it, or those with the row of the
body added, and the latter only for a body that passes the validation: `name` and `address`
truthy (so neither absent nor the empty text), `latitude` and `longitude` present and `isNaN`
false for both.  A body that does not pass is rejected with the store left as it was (no call
to the driver, no row inserted): with 400, or with 500 when the coercion inside `isNaN`
throws. -/
theorem addSchool_persists_only_validated (body : AddSchoolBody) (store : StoreOutcome ℕ)
    (db : Db) :
    ((addSchoolHandler body store db).2.inserted = db.inserted ∨
        ((addSchoolHandler body store db).2.inserted =
            db.inserted ++
              [(⟨body.name, body.address, body.latitude, body.longitude⟩ : InsertParams)] ∧
          PassesValidation body)) ∧
      (PassesValidation body ∨
        ((addSchoolHandler body store db).1.status = 400 ∧
          (addSchoolHandler body store db).2 = db) ∨
        (isNaNGuard body.latitude body.longitude = none ∧
          (addSchoolHandler body store db).1.status = 500 ∧
          (addSchoolHandler body store db).2 = db)) := by
  by_cases h : PassesValidation body
  · refine ⟨?_, Or.inl h⟩
    rcases (addSchoolHandler_of_passes body store db h).2 with h1 | h1
    · exact Or.inl h1
    · exact Or.inr ⟨h1, h⟩
  · by_cases hc : (!body.name.toBoolean || !body.address.toBoolean ||
        body.latitude.isUndefined || body.longitude.isUndefined) = true
    · rw [addSchoolHandler_of_missing body store db hc]
      exact ⟨Or.inl rfl, Or.inr (Or.inl ⟨rfl, rfl⟩)⟩
    · have hg : isNaNGuard body.latitude body.longitude ≠ some false := fun hg =>
        h ((passesValidation_iff body).2 ⟨hc, hg⟩)
      rcases addSchoolHandler_of_guard body store db hc hg with ⟨_, h1⟩ | ⟨h0, h1⟩
      · rw [h1]
        exact ⟨Or.inl rfl, Or.inr (Or.inl ⟨rfl, rfl⟩)⟩
      · rw [h1]
        exact ⟨Or.inl rfl, Or.inr (Or.inr ⟨h0, rfl, rfl⟩)⟩

/-- C9, as stated, fails: with `latitude=Infinity`, and with `latitude=12abc`, the request is
not rejected; a connection is opened, the rows are read and the response is 200. -/
theorem listSchools_not_finite_counterexample :
    parseFloat "Infinity" = inf false ∧
      (listSchoolsHandler infinityQuery selectSucceeds emptyDb).1.status = 200 ∧
      (listSchoolsHandler infinityQuery selectSucceeds emptyDb).2.calls =
        [.createConnection, .query, .connectionEnd] ∧
      (listSchoolsHandler trailingTextQuery selectSucceeds emptyDb).1.status = 200 ∧
      (listSchoolsHandler trailingTextQuery selectSucceeds emptyDb).2.calls =
        [.createConnection, .query, .connectionEnd] := by
  have h1 : listSchoolsHandler infinityQuery selectSucceeds emptyDb = _ :=
    listSchoolsHandler_of_rows infinityQuery emptyDb [] rfl (isNaN_ofMagnitude _)
  have h2 : listSchoolsHandler trailingTextQuery selectSucceeds emptyDb = _ :=
    listSchoolsHandler_of_rows trailingTextQuery emptyDb [] (isNaN_ofMagnitude _)
      (isNaN_ofMagnitude _)
  rw [h1, h2]
  exact ⟨rfl, rfl, rfl, rfl, rfl⟩

/-- C9, amended: for every `listSchools` request in which the `latitude` or `longitude`
parameter is missing or is a text that `parseFloat` reads as `NaN` (no decimal literal at its
head), the response is 400 with an error body, so no distance is computed, and the store is
left as it was: no call to the driver. -/
theorem listSchools_rejects_nan (query : ListSchoolsQuery) (store : StoreOutcome (List School))
    (db : Db)
    (h : query.latitude = none ∨ query.longitude = none ∨
      (parseFloatParam query.latitude).isNaN = true ∨
      (parseFloatParam query.longitude).isNaN = true) :
    (listSchoolsHandler query store db).1.status = 400 ∧
      (∃ msg, (listSchoolsHandler query store db).1.body = .error msg) ∧
      (listSchoolsHandler query store db).2 = db := by
  have hc : ((parseFloatParam query.latitude).isNaN ||
      (parseFloatParam query.longitude).isNaN) = true := by
    rcases h with h | h | h | h
    · rw [h]; rfl
    · rw [h, Bool.or_eq_true]; exact Or.inr rfl
    · rw [h]; rfl
    · rw [h, Bool.or_eq_true]; exact Or.inr rfl
  unfold listSchoolsHandler
  rw [if_pos hc]
  exact ⟨rfl, ⟨_, rfl⟩, rfl⟩

/-- Instance of the amended C9: the request without a latitude is answered with 400 and the
store is left as it was. -/
theorem listSchools_rejects_nan_witness :
    (listSchoolsHandler missingLatitudeQuery selectSucceeds emptyDb).1.status = 400 ∧
      (∃ msg,
        (listSchoolsHandler missingLatitudeQuery selectSucceeds emptyDb).1.body = .error msg) ∧
      (listSchoolsHandler missingLatitudeQuery selectSucceeds emptyDb).2 = emptyDb :=
  listSchools_rejects_nan missingLatitudeQuery selectSucceeds emptyDb (Or.inl rfl)

/-- C10 at the failing input: when the connection is opened and the statement then throws,
either handler answers 500 and leaves one connection more open than before the request. -/
theorem handlers_leak_connection_when_statement_throws (db : Db) :
    (addSchoolHandler validBody insertThrows db).1.status = 500 ∧
      (addSchoolHandler validBody insertThrows db).2.openConnections = db.openConnections + 1 ∧
      (listSchoolsHandler originQuery selectThrows db).1.status = 500 ∧
      (listSchoolsHandler originQuery selectThrows db).2.openConnections =
        db.openConnections + 1 := by
  have h : listSchoolsHandler originQuery selectThrows db = _ :=
    listSchoolsHandler_of_throw originQuery db (isNaN_ofMagnitude _) (isNaN_ofMagnitude _)
  rw [h]
  exact ⟨rfl, rfl, rfl, rfl⟩

end
